import Mathlib

/-!
# im-lazy: the swapchain frame loop of `src/main.cpp`

A shallow embedding of `main` and a verification of its frame-submission
protocol.

The program is one function, `main`.  Everything under `gpu::` and every
`glfw*` function belongs to libraries outside this repository, so the
embedding treats them as collaborators:

* the GPU side (swapchain, context) is an arbitrary state type `σ` with the
  operations `main` calls on it collected in `Env σ`;
* the window is the sequence of answers `glfwWindowShouldClose` gives, one
  answer per query;
* an object made by `CommandPool->create<...>` is a value carrying the number
  of the creation call that made it (two live objects never share it) and the
  commands recorded into it;
* `std::shared_ptr<T>` is `Option T`, the null pointer being `none`;
* every call `main` makes is logged as an `event`, in program order.

Reading a `std::vector` outside its bounds is undefined behaviour in C++; the
embedding stops there with `loop_exit.undefined_behaviour`.
-/

namespace ImLazy

/-! ## Data model -/

/-- A `std::shared_ptr<T>`; `none` is the null pointer. -/
abbrev shared_ptr (α : Type) : Type := Option α

/-- The Vulkan enumeration `VkPhysicalDeviceType`. -/
inductive VkPhysicalDeviceType where
  | OTHER
  | INTEGRATED_GPU
  | DISCRETE_GPU
  | VIRTUAL_GPU
  | CPU
deriving DecidableEq, Repr

/-- A `gpu::device`: a handle and the one property `main` reads,
`Properties.deviceType`. -/
structure device where
  Handle : Nat
  deviceType : VkPhysicalDeviceType
deriving DecidableEq, Repr

/-- The flags of `gpu::device::operation` that `main` names. -/
inductive operation where
  | GRAPHICS
  | COMPUTE
  | TRANSFER
deriving DecidableEq, Repr

/-- The image layouts of `gpu::image::layout` (the Vulkan `VkImageLayout`
values an image can be in). -/
inductive layout where
  | UNDEFINED
  | GENERAL
  | COLOR_ATTACHMENT_OPTIMAL
  | SHADER_READ_ONLY_OPTIMAL
  | TRANSFER_SRC_OPTIMAL
  | TRANSFER_DST_OPTIMAL
  | PRESENT_SRC_KHR
deriving DecidableEq, Repr

/-- A `VkResult` is a C integer. -/
abbrev VkResult : Type := Int

/-- The value `VK_SUCCESS`. -/
def VK_SUCCESS : VkResult := 0

/-- The value `VK_ERROR_OUT_OF_DATE_KHR`. -/
def VK_ERROR_OUT_OF_DATE_KHR : VkResult := -1000001004

/-- The value `VK_PIPELINE_STAGE_COLOR_ATTACHMENT_OUTPUT_BIT` (0x400). -/
def VK_PIPELINE_STAGE_COLOR_ATTACHMENT_OUTPUT_BIT : Nat := 1024

/-- The value `VK_KHR_SWAPCHAIN_EXTENSION_NAME`. -/
def VK_KHR_SWAPCHAIN_EXTENSION_NAME : String := "VK_KHR_swapchain"

/-- A `gpu::semaphore`, known by its handle. -/
structure semaphore where
  Handle : Nat
deriving DecidableEq, Repr

/-- One command recorded into a command buffer.  A swapchain image
`Swapchain->Image[i]["Color"]` is named by its index `i`. -/
inductive command where
  | transition (image : Nat) (old new : layout)
  | draw (image : Nat)
deriving DecidableEq, Repr

/-- The recording state of a command buffer. -/
inductive recording_state where
  | Initial
  | Recording
  | Executable
deriving DecidableEq, Repr

/-- A `gpu::command_buffer` (a `gpu::rasterization_call` is one too): the
number of the pool's creation call that made it, its recording state and the
commands recorded into it. -/
structure command_buffer where
  id : Nat
  state : recording_state
  commands : List command
deriving DecidableEq, Repr

/-- A `gpu::command_pool`: the queue operation it serves and how many objects
it has created. -/
structure command_pool where
  Operation : operation
  created : Nat
deriving DecidableEq, Repr

/-- A `gpu::command_batch`, with the four lists `main` fills. -/
structure command_batch where
  WaitSemaphoreList : List (shared_ptr semaphore)
  WaitStageList : List Nat
  CommandBufferList : List (shared_ptr command_buffer)
  SignalSemaphoreList : List (shared_ptr semaphore)
deriving DecidableEq, Repr

/-- The calls `main` makes, as they appear in its trace. -/
inductive event where
  | create_context (PrimaryDevice : shared_ptr device) (Operations : List (List operation))
      (Layers Extensions : List String)
  | create_command_pool (Operation : operation)
  | create_command_buffer (id : Nat)
  | command_buffer_begin (id : Nat)
  | image_transition (id : Nat) (image : Nat) (old new : layout)
  | command_buffer_end (id : Nat)
  | create_rasterization_call (id : Nat) (image : Nat)
  | glfwWindowShouldClose (answer : Bool)
  | glfwPollEvents
  | next_frame (Result : VkResult)
  | get_acquire_present_semaphore_pair (pair : shared_ptr semaphore × shared_ptr semaphore)
  | make_command_batch
  | execute_and_wait_call (Operation : operation) (batches : List command_batch)
  | execute_and_wait_return
  | glfwTerminate
deriving DecidableEq, Repr

/-- The GPU collaborators of the frame loop over an external state `σ`:
`glfwPollEvents()`, `Swapchain->next_frame()`,
`Swapchain->get_acquire_present_semaphore_pair()`, the member
`Swapchain->DrawIndex` and `Context->execute_and_wait(...)`. -/
structure Env (σ : Type) where
  glfwPollEvents : σ → σ
  next_frame : σ → VkResult × σ
  get_acquire_present_semaphore_pair : σ → shared_ptr semaphore × shared_ptr semaphore
  DrawIndex : σ → Nat
  execute_and_wait : operation → List command_batch → σ → σ

/-! ## Device selection (lines 60-67) -/

/-- The loop `for (auto& Device : DeviceList)`: the first argument is
`PrimaryDevice` as it stands, the second what is left of the list. -/
def select_device : shared_ptr device → List device → shared_ptr device
  | PrimaryDevice, [] => PrimaryDevice
  | PrimaryDevice, Device :: rest =>
    if Device.deviceType = VkPhysicalDeviceType.DISCRETE_GPU then
      some Device
    else
      select_device PrimaryDevice rest

/-- The `ContextOperations` of line 71. -/
def ContextOperations : List (List operation) :=
  [[operation.GRAPHICS, operation.COMPUTE], [operation.TRANSFER]]

/-- Lines 60-77: select the device, then call `Instance->create_context`.
Returns the trace and `PrimaryDevice`. -/
def setup_context (DeviceList : List device) : List event × shared_ptr device :=
  let PrimaryDevice := select_device none DeviceList
  ([event.create_context PrimaryDevice ContextOperations [] [VK_KHR_SWAPCHAIN_EXTENSION_NAME]],
    PrimaryDevice)

/-! ## Command recording (lines 97-99 and 183-212) -/

/-- The locals of `main` that hold command buffers. -/
structure locals where
  CommandPool : command_pool
  ClearScreenCommandBuffer : List (shared_ptr command_buffer)
  DrawCall : List (shared_ptr command_buffer)
  FinalTransitionCommandBuffer : List (shared_ptr command_buffer)
deriving DecidableEq, Repr

/-- The call `CommandPool->create<gpu::command_buffer>()`: a new buffer in the
initial state. -/
def command_pool.create (pool : command_pool) : command_buffer × command_pool :=
  ({ id := pool.created, state := recording_state.Initial, commands := [] },
    { pool with created := pool.created + 1 })

/-- The call `CommandBuffer->begin()`. -/
def command_buffer.begin (cb : command_buffer) : command_buffer :=
  { cb with state := recording_state.Recording }

/-- The call `Image->transition(CommandBuffer, old, new)`: records the
transition into the buffer. -/
def command_buffer.transition (cb : command_buffer) (image : Nat) (old new : layout) :
    command_buffer :=
  { cb with commands := cb.commands ++ [command.transition image old new] }

/-- The call `CommandBuffer->end()`. -/
def command_buffer.finish (cb : command_buffer) : command_buffer :=
  { cb with state := recording_state.Executable }

/-- The call `CommandPool->create<gpu::rasterization_call>(Pipeline, {Image}, {VertexBuffer})`:
a new buffer holding the draw into the image, ready to execute. -/
def command_pool.create_rasterization_call (pool : command_pool) (image : Nat) :
    command_buffer × command_pool :=
  ({ id := pool.created, state := recording_state.Executable, commands := [command.draw image] },
    { pool with created := pool.created + 1 })

/-- Lines 97-99 and 183: three vectors of `N` null pointers, and the pool. -/
def init_locals (N : Nat) : locals :=
  { CommandPool := { Operation := operation.GRAPHICS, created := 0 }
    ClearScreenCommandBuffer := List.replicate N none
    DrawCall := List.replicate N none
    FinalTransitionCommandBuffer := List.replicate N none }

/-- The body of the recording loop for slot `i` (lines 187-211). -/
def record_slot (i : Nat) (st : locals) : List event × locals :=
  -- Transition swapchain image layout to SHADER READ
  let (cb1, pool1) := st.CommandPool.create
  let cb1 := cb1.begin
  let cb1 := cb1.transition i layout.PRESENT_SRC_KHR layout.SHADER_READ_ONLY_OPTIMAL
  let cb1 := cb1.finish
  let Clear := st.ClearScreenCommandBuffer.set i (some cb1)
  -- Actual Draw Call
  let (cb2, pool2) := pool1.create_rasterization_call i
  let Draw := st.DrawCall.set i (some cb2)
  -- Transition back for presentation.
  let (cb3, pool3) := pool2.create
  let cb3 := cb3.begin
  let cb3 := cb3.transition i layout.SHADER_READ_ONLY_OPTIMAL layout.PRESENT_SRC_KHR
  let cb3 := cb3.finish
  let Final := st.FinalTransitionCommandBuffer.set i (some cb3)
  ([event.create_command_buffer cb1.id,
    event.command_buffer_begin cb1.id,
    event.image_transition cb1.id i layout.PRESENT_SRC_KHR layout.SHADER_READ_ONLY_OPTIMAL,
    event.command_buffer_end cb1.id,
    event.create_rasterization_call cb2.id i,
    event.create_command_buffer cb3.id,
    event.command_buffer_begin cb3.id,
    event.image_transition cb3.id i layout.SHADER_READ_ONLY_OPTIMAL layout.PRESENT_SRC_KHR,
    event.command_buffer_end cb3.id],
   { CommandPool := pool3
     ClearScreenCommandBuffer := Clear
     DrawCall := Draw
     FinalTransitionCommandBuffer := Final })

/-- The loop `for (size_t i = 0; i < Swapchain->Image.size(); ++i)` from the
point where `count` slots remain and the index stands at `i`. -/
def record_loop : (count : Nat) → (i : Nat) → locals → List event × locals
  | 0, _, st => ([], st)
  | count + 1, i, st =>
    let (evs, st1) := record_slot i st
    let (evs2, st2) := record_loop count (i + 1) st1
    (evs ++ evs2, st2)

/-- Lines 97-99 and 183-212 for a swapchain of `N` images. -/
def record_commands (N : Nat) : List event × locals :=
  let (evs, st) := record_loop N 0 (init_locals N)
  (event.create_command_pool operation.GRAPHICS :: evs, st)

/-! ## The frame loop (lines 216-242) -/

/-- One pass through the body of the `while` loop (lines 217-240), from the
locals `st` and the external state `w`.  `none` is the undefined behaviour of
indexing a vector outside its bounds. -/
def frame_iteration {σ : Type} (env : Env σ) (st : locals) (w : σ) :
    Option (List event × locals × σ) :=
  -- glfwPollEvents();
  let w1 := env.glfwPollEvents w
  -- VkResult Result = Swapchain->next_frame();
  let (Result, w2) := env.next_frame w1
  -- AcquirePresentSemaphores = Swapchain->get_acquire_present_semaphore_pair();
  let AcquirePresentSemaphores := env.get_acquire_present_semaphore_pair w2
  -- Submission = geodesy::make<gpu::command_batch>();
  let Submission : command_batch :=
    { WaitSemaphoreList := [], WaitStageList := [], CommandBufferList := [],
      SignalSemaphoreList := [] }
  let Submission := { Submission with
    WaitSemaphoreList := Submission.WaitSemaphoreList ++ [AcquirePresentSemaphores.1] }
  let Submission := { Submission with
    WaitStageList := Submission.WaitStageList ++ [VK_PIPELINE_STAGE_COLOR_ATTACHMENT_OUTPUT_BIT] }
  match st.ClearScreenCommandBuffer[env.DrawIndex w2]? with
  | none => none
  | some pre =>
    let Submission := { Submission with
      CommandBufferList := Submission.CommandBufferList ++ [pre] }
    match st.DrawCall[env.DrawIndex w2]? with
    | none => none
    | some call =>
      let Submission := { Submission with
        CommandBufferList := Submission.CommandBufferList ++ [call] }
      match st.FinalTransitionCommandBuffer[env.DrawIndex w2]? with
      | none => none
      | some post =>
        let Submission := { Submission with
          CommandBufferList := Submission.CommandBufferList ++ [post] }
        let Submission := { Submission with
          SignalSemaphoreList := Submission.SignalSemaphoreList ++ [AcquirePresentSemaphores.2] }
        -- Context->execute_and_wait(GRAPHICS, { Submission });
        let w3 := env.execute_and_wait operation.GRAPHICS [Submission] w2
        some ([event.glfwPollEvents,
               event.next_frame Result,
               event.get_acquire_present_semaphore_pair AcquirePresentSemaphores,
               event.make_command_batch,
               event.execute_and_wait_call operation.GRAPHICS [Submission],
               event.execute_and_wait_return],
              st, w3)

/-- How a run of the frame loop stops. -/
inductive loop_exit where
  | window_closed
  | still_running
  | undefined_behaviour
deriving DecidableEq, Repr

/-- What a run of the frame loop leaves behind. -/
structure loop_result (σ : Type) where
  events : List event
  st : locals
  world : σ
  exit : loop_exit

/-- The loop `while (!glfwWindowShouldClose(Window)) { ... }`, driven by the
answers the window gives to successive should-close queries.  When the answers
run out the loop has not finished (`still_running`). -/
def frame_loop {σ : Type} (env : Env σ) : List Bool → locals → σ → loop_result σ
  | [], st, w => { events := [], st := st, world := w, exit := loop_exit.still_running }
  | true :: _, st, w =>
    { events := [event.glfwWindowShouldClose true], st := st, world := w,
      exit := loop_exit.window_closed }
  | false :: answers, st, w =>
    match frame_iteration env st w with
    | none =>
      { events := [event.glfwWindowShouldClose false], st := st, world := w,
        exit := loop_exit.undefined_behaviour }
    | some (evs, st1, w1) =>
      let r := frame_loop env answers st1 w1
      { r with events := event.glfwWindowShouldClose false :: (evs ++ r.events) }

/-! ## The program -/

/-- What `main` leaves behind: its trace, the external state and, when it
returned, its exit code. -/
structure main_result (σ : Type) where
  events : List event
  world : σ
  exit_code : Option Int

/-- The function `main`, from the device list `Instance->get_devices()`
returns, the number `N` of swapchain images (`Swapchain->Image.size()`), the
window's should-close answers and the external state at the first loop test.
Window, instance, swapchain, buffer, shader and pipeline creation are calls
into the libraries with no bearing on the loop and are left out of the
trace. -/
def main {σ : Type} (env : Env σ) (DeviceList : List device) (N : Nat)
    (answers : List Bool) (w : σ) : main_result σ :=
  let (evs0, _) := setup_context DeviceList
  let (evs1, st) := record_commands N
  let r := frame_loop env answers st w
  match r.exit with
  | loop_exit.window_closed =>
    -- glfwTerminate(); return 0;
    { events := evs0 ++ evs1 ++ r.events ++ [event.glfwTerminate], world := r.world,
      exit_code := some 0 }
  | _ =>
    { events := evs0 ++ evs1 ++ r.events, world := r.world, exit_code := none }

/-! ## Reading a trace -/

/-- The batches handed to `execute_and_wait` in a trace, in order. -/
def submitted : List event → List command_batch
  | [] => []
  | event.execute_and_wait_call _ batches :: rest => batches ++ submitted rest
  | _ :: rest => submitted rest

/-- The number of batches in flight at the end of a trace that starts with
`n` in flight: a batch is in flight from the call of `execute_and_wait` that
submits it until that call returns. -/
def in_flight : Nat → List event → Nat
  | n, [] => n
  | n, event.execute_and_wait_call _ batches :: rest => in_flight (n + batches.length) rest
  | _, event.execute_and_wait_return :: rest => in_flight 0 rest
  | n, _ :: rest => in_flight n rest

/-- The number of `next_frame()` calls in a trace. -/
def acquisitions : List event → Nat
  | [] => 0
  | event.next_frame _ :: rest => acquisitions rest + 1
  | _ :: rest => acquisitions rest

/-- The number of `execute_and_wait` calls in a trace. -/
def submissions : List event → Nat
  | [] => 0
  | event.execute_and_wait_call _ _ :: rest => submissions rest + 1
  | _ :: rest => submissions rest

/-- The number of should-close queries in a trace. -/
def close_queries : List event → Nat
  | [] => 0
  | event.glfwWindowShouldClose _ :: rest => close_queries rest + 1
  | _ :: rest => close_queries rest

/-- Whether an event creates, begins, records into or ends a command buffer. -/
def event.records : event → Bool
  | event.create_command_buffer _ => true
  | event.command_buffer_begin _ => true
  | event.image_transition _ _ _ _ => true
  | event.command_buffer_end _ => true
  | event.create_rasterization_call _ _ => true
  | event.create_command_pool _ => true
  | _ => false

/-! ## Executing batches on the image layouts -/

/-- The effect of one command on the layouts of the swapchain images: a
transition of image `i` needs the image to be in its recorded source layout
and leaves it in the target layout; a draw leaves the layouts as they are. -/
def exec_command (layouts : List layout) : command → Option (List layout)
  | command.transition image old new =>
    if layouts[image]? = some old then some (layouts.set image new) else none
  | command.draw _ => some layouts

/-- The commands of a buffer, in recorded order. -/
def exec_commands : List layout → List command → Option (List layout)
  | layouts, [] => some layouts
  | layouts, c :: rest =>
    match exec_command layouts c with
    | none => none
    | some layouts1 => exec_commands layouts1 rest

/-- The buffers of a batch, in list order; a null buffer cannot execute. -/
def exec_buffers : List layout → List (shared_ptr command_buffer) → Option (List layout)
  | layouts, [] => some layouts
  | _, none :: _ => none
  | layouts, some cb :: rest =>
    match exec_commands layouts cb.commands with
    | none => none
    | some layouts1 => exec_buffers layouts1 rest

/-- The batches of a run, in submission order: the layouts after each batch,
or `none` when some transition does not start from the layout its image is
in. -/
def exec_batches : List layout → List command_batch → Option (List (List layout))
  | _, [] => some []
  | layouts, b :: rest =>
    match exec_buffers layouts b.CommandBufferList with
    | none => none
    | some layouts1 =>
      match exec_batches layouts1 rest with
      | none => none
      | some after => some (layouts1 :: after)

/-- The transitions recorded in the buffers of a batch. -/
def batch_transitions (b : command_batch) : List (layout × layout) :=
  b.CommandBufferList.flatMap fun p =>
    match p with
    | none => []
    | some cb => cb.commands.flatMap fun c =>
      match c with
      | command.transition _ old new => [(old, new)]
      | command.draw _ => []

/-! ## The recorded buffers -/

/-- The pre-transition buffer the recording loop makes for slot `i`. -/
def pre_transition (i : Nat) : command_buffer :=
  { id := 3 * i, state := recording_state.Executable,
    commands := [command.transition i layout.PRESENT_SRC_KHR layout.SHADER_READ_ONLY_OPTIMAL] }

/-- The draw call the recording loop makes for slot `i`. -/
def draw_call (i : Nat) : command_buffer :=
  { id := 3 * i + 1, state := recording_state.Executable, commands := [command.draw i] }

/-- The post-transition buffer the recording loop makes for slot `i`. -/
def post_transition (i : Nat) : command_buffer :=
  { id := 3 * i + 2, state := recording_state.Executable,
    commands := [command.transition i layout.SHADER_READ_ONLY_OPTIMAL layout.PRESENT_SRC_KHR] }

/-- The locals once all `N` slots are recorded. -/
def recorded (N : Nat) : locals :=
  { CommandPool := { Operation := operation.GRAPHICS, created := 3 * N }
    ClearScreenCommandBuffer := (List.range N).map fun i => some (pre_transition i)
    DrawCall := (List.range N).map fun i => some (draw_call i)
    FinalTransitionCommandBuffer := (List.range N).map fun i => some (post_transition i) }

/-- Every pointer held in the three per-slot vectors. -/
def locals.all_buffers (st : locals) : List (shared_ptr command_buffer) :=
  st.ClearScreenCommandBuffer ++ st.DrawCall ++ st.FinalTransitionCommandBuffer

/-! ## One iteration in closed form -/

/-- The external state right after an iteration's `next_frame()` call, for
an iteration that starts in `w`. -/
def acquired {σ : Type} (env : Env σ) (w : σ) : σ :=
  (env.next_frame (env.glfwPollEvents w)).2

/-- The batch an iteration fills from a semaphore pair and three buffers. -/
def batch_of (pair : shared_ptr semaphore × shared_ptr semaphore)
    (pre call post : shared_ptr command_buffer) : command_batch :=
  { WaitSemaphoreList := [pair.1]
    WaitStageList := [VK_PIPELINE_STAGE_COLOR_ATTACHMENT_OUTPUT_BIT]
    CommandBufferList := [pre, call, post]
    SignalSemaphoreList := [pair.2] }

/-- The trace of an iteration that submits the batch `b`. -/
def iteration_events (Result : VkResult) (pair : shared_ptr semaphore × shared_ptr semaphore)
    (b : command_batch) : List event :=
  [event.glfwPollEvents,
   event.next_frame Result,
   event.get_acquire_present_semaphore_pair pair,
   event.make_command_batch,
   event.execute_and_wait_call operation.GRAPHICS [b],
   event.execute_and_wait_return]

/-- The batch of slot `i`: the slot's three recorded buffers between the
semaphores of `pair`. -/
def slot_batch (pair : shared_ptr semaphore × shared_ptr semaphore) (i : Nat) : command_batch :=
  batch_of pair (some (pre_transition i)) (some (draw_call i)) (some (post_transition i))

/-! ## Two concrete swapchains -/

/-- A swapchain of three images that hands out the slots 0, 1, 2, 0, ... in
turn; the external state counts the `next_frame()` calls made so far, and
slot `i` owns the semaphores `2 i` and `2 i + 1`. -/
def ring_env : Env Nat :=
  { glfwPollEvents := fun n => n
    next_frame := fun n => (VK_SUCCESS, n + 1)
    get_acquire_present_semaphore_pair := fun n =>
      (some { Handle := 2 * ((n + 2) % 3) }, some { Handle := 2 * ((n + 2) % 3) + 1 })
    DrawIndex := fun n => (n + 2) % 3
    execute_and_wait := fun _ _ n => n }

/-- A swapchain of three images whose surface has gone out of date: every
`next_frame()` returns `VK_ERROR_OUT_OF_DATE_KHR` and leaves the draw index
where it was, at slot 1. -/
def stale_env : Env Nat :=
  { glfwPollEvents := fun n => n
    next_frame := fun n => (VK_ERROR_OUT_OF_DATE_KHR, n)
    get_acquire_present_semaphore_pair := fun _ => (some { Handle := 2 }, some { Handle := 3 })
    DrawIndex := fun _ => 1
    execute_and_wait := fun _ _ n => n }

/-! ## Lemmas on the recording loop -/

theorem set_after_range {α : Type} (f : Nat → α) (i : Nat) (a b : α) (r : List α) :
    (((List.range i).map f) ++ a :: r).set i b = ((List.range i).map f) ++ b :: r := by
  simp

theorem record_slot_st (i count : Nat) :
    (record_slot i
      { CommandPool := { Operation := operation.GRAPHICS, created := 3 * i }
        ClearScreenCommandBuffer :=
          ((List.range i).map fun j => some (pre_transition j)) ++ List.replicate (count + 1) none
        DrawCall :=
          ((List.range i).map fun j => some (draw_call j)) ++ List.replicate (count + 1) none
        FinalTransitionCommandBuffer :=
          ((List.range i).map fun j => some (post_transition j))
            ++ List.replicate (count + 1) none }).2 =
      { CommandPool := { Operation := operation.GRAPHICS, created := 3 * (i + 1) }
        ClearScreenCommandBuffer :=
          ((List.range (i + 1)).map fun j => some (pre_transition j)) ++ List.replicate count none
        DrawCall :=
          ((List.range (i + 1)).map fun j => some (draw_call j)) ++ List.replicate count none
        FinalTransitionCommandBuffer :=
          ((List.range (i + 1)).map fun j => some (post_transition j))
            ++ List.replicate count none } := by
  simp only [record_slot, command_pool.create, command_pool.create_rasterization_call,
    command_buffer.begin, command_buffer.transition, command_buffer.finish, List.replicate_succ,
    List.range_succ, List.map_append, List.map_cons, List.map_nil, List.append_assoc,
    List.singleton_append, List.nil_append, set_after_range]
  simp only [pre_transition, draw_call, post_transition, Nat.mul_add]

theorem record_loop_st (count : Nat) : ∀ i : Nat,
    (record_loop count i
      { CommandPool := { Operation := operation.GRAPHICS, created := 3 * i }
        ClearScreenCommandBuffer :=
          ((List.range i).map fun j => some (pre_transition j)) ++ List.replicate count none
        DrawCall :=
          ((List.range i).map fun j => some (draw_call j)) ++ List.replicate count none
        FinalTransitionCommandBuffer :=
          ((List.range i).map fun j => some (post_transition j))
            ++ List.replicate count none }).2 = recorded (i + count) := by
  induction count with
  | zero =>
    intro i
    simp [record_loop, recorded]
  | succ count ih =>
    intro i
    have hslot := record_slot_st i count
    have hrec := ih (i + 1)
    rw [← hslot] at hrec
    have hadd : i + (count + 1) = i + 1 + count := by omega
    rw [hadd, ← hrec]
    rfl

theorem record_commands_st (N : Nat) : (record_commands N).2 = recorded N := by
  have h := record_loop_st N 0
  simp only [List.range_zero, List.map_nil, List.nil_append, Nat.mul_zero, Nat.zero_add] at h
  simp only [record_commands, init_locals]
  exact h

/-! ## Lemmas on one iteration -/

theorem frame_iteration_of_lookups {σ : Type} (env : Env σ) (st : locals) (w : σ)
    (pre call post : shared_ptr command_buffer)
    (h1 : st.ClearScreenCommandBuffer[env.DrawIndex (acquired env w)]? = some pre)
    (h2 : st.DrawCall[env.DrawIndex (acquired env w)]? = some call)
    (h3 : st.FinalTransitionCommandBuffer[env.DrawIndex (acquired env w)]? = some post) :
    frame_iteration env st w =
      some (iteration_events (env.next_frame (env.glfwPollEvents w)).1
              (env.get_acquire_present_semaphore_pair (acquired env w))
              (batch_of (env.get_acquire_present_semaphore_pair (acquired env w)) pre call post),
            st,
            env.execute_and_wait operation.GRAPHICS
              [batch_of (env.get_acquire_present_semaphore_pair (acquired env w)) pre call post]
              (acquired env w)) := by
  unfold acquired at h1 h2 h3
  simp only [frame_iteration, h1, h2, h3, iteration_events, batch_of, acquired, List.nil_append]
  rfl

theorem frame_iteration_lookups {σ : Type} (env : Env σ) (st : locals) (w : σ)
    (r : List event × locals × σ) (h : frame_iteration env st w = some r) :
    ∃ pre call post,
      st.ClearScreenCommandBuffer[env.DrawIndex (acquired env w)]? = some pre ∧
      st.DrawCall[env.DrawIndex (acquired env w)]? = some call ∧
      st.FinalTransitionCommandBuffer[env.DrawIndex (acquired env w)]? = some post := by
  cases h1 : st.ClearScreenCommandBuffer[env.DrawIndex (acquired env w)]? with
  | none =>
    unfold acquired at h1
    simp [frame_iteration, h1] at h
  | some pre =>
    cases h2 : st.DrawCall[env.DrawIndex (acquired env w)]? with
    | none =>
      unfold acquired at h1 h2
      simp [frame_iteration, h1, h2] at h
    | some call =>
      cases h3 : st.FinalTransitionCommandBuffer[env.DrawIndex (acquired env w)]? with
      | none =>
        unfold acquired at h1 h2 h3
        simp [frame_iteration, h1, h2, h3] at h
      | some post => exact ⟨pre, call, post, rfl, rfl, rfl⟩

theorem recorded_clear (N d : Nat) (h : d < N) :
    (recorded N).ClearScreenCommandBuffer[d]? = some (some (pre_transition d)) := by
  simp [recorded, List.getElem?_map, List.getElem?_range h]

theorem recorded_draw (N d : Nat) (h : d < N) :
    (recorded N).DrawCall[d]? = some (some (draw_call d)) := by
  simp [recorded, List.getElem?_map, List.getElem?_range h]

theorem recorded_final (N d : Nat) (h : d < N) :
    (recorded N).FinalTransitionCommandBuffer[d]? = some (some (post_transition d)) := by
  simp [recorded, List.getElem?_map, List.getElem?_range h]

theorem recorded_clear_bound (N d : Nat) (p : shared_ptr command_buffer)
    (h : (recorded N).ClearScreenCommandBuffer[d]? = some p) : d < N := by
  have hlt := (List.getElem?_eq_some.1 h).1
  simpa [recorded] using hlt

theorem frame_iteration_recorded {σ : Type} (env : Env σ) (N : Nat) (w : σ)
    (h : env.DrawIndex (acquired env w) < N) :
    frame_iteration env (recorded N) w =
      some (iteration_events (env.next_frame (env.glfwPollEvents w)).1
              (env.get_acquire_present_semaphore_pair (acquired env w))
              (slot_batch (env.get_acquire_present_semaphore_pair (acquired env w))
                (env.DrawIndex (acquired env w))),
            recorded N,
            env.execute_and_wait operation.GRAPHICS
              [slot_batch (env.get_acquire_present_semaphore_pair (acquired env w))
                (env.DrawIndex (acquired env w))]
              (acquired env w)) :=
  frame_iteration_of_lookups env (recorded N) w _ _ _
    (recorded_clear N _ h) (recorded_draw N _ h) (recorded_final N _ h)

theorem frame_iteration_recorded_bound {σ : Type} (env : Env σ) (N : Nat) (w : σ)
    (r : List event × locals × σ) (h : frame_iteration env (recorded N) w = some r) :
    env.DrawIndex (acquired env w) < N := by
  obtain ⟨pre, _, _, h1, _, _⟩ := frame_iteration_lookups env (recorded N) w r h
  exact recorded_clear_bound N _ pre h1

theorem frame_iteration_st {σ : Type} (env : Env σ) (st : locals) (w : σ)
    (r : List event × locals × σ) (h : frame_iteration env st w = some r) : r.2.1 = st := by
  obtain ⟨pre, call, post, h1, h2, h3⟩ := frame_iteration_lookups env st w r h
  rw [frame_iteration_of_lookups env st w pre call post h1 h2 h3] at h
  cases h
  rfl

theorem submitted_iteration_events (Result : VkResult)
    (pair : shared_ptr semaphore × shared_ptr semaphore) (b : command_batch) :
    submitted (iteration_events Result pair b) = [b] := rfl

theorem submitted_append (l1 l2 : List event) :
    submitted (l1 ++ l2) = submitted l1 ++ submitted l2 := by
  induction l1 with
  | nil => rfl
  | cons e rest ih =>
    cases e <;> simp [submitted, ih]

/-! ## Lemmas on the loop -/

theorem frame_loop_st {σ : Type} (env : Env σ) (answers : List Bool) :
    ∀ (st : locals) (w : σ), (frame_loop env answers st w).st = st := by
  induction answers with
  | nil => intro st w; rfl
  | cons a rest ih =>
    intro st w
    cases a with
    | true => rfl
    | false =>
      cases h : frame_iteration env st w with
      | none => simp [frame_loop, h]
      | some r =>
        obtain ⟨evs, st1, w1⟩ := r
        have hst : st1 = st := frame_iteration_st env st w _ h
        subst hst
        simp [frame_loop, h, ih]

theorem submitted_frame_loop {σ : Type} (env : Env σ) (N : Nat) (answers : List Bool) :
    ∀ (w : σ) (b : command_batch),
      b ∈ submitted (frame_loop env answers (recorded N) w).events →
      ∃ w1 : σ, env.DrawIndex (acquired env w1) < N ∧
        b = slot_batch (env.get_acquire_present_semaphore_pair (acquired env w1))
              (env.DrawIndex (acquired env w1)) := by
  induction answers with
  | nil => intro w b hb; simp [frame_loop, submitted] at hb
  | cons a rest ih =>
    intro w b hb
    cases a with
    | true => simp [frame_loop, submitted] at hb
    | false =>
      cases h : frame_iteration env (recorded N) w with
      | none => simp [frame_loop, h, submitted] at hb
      | some r =>
        have hd := frame_iteration_recorded_bound env N w r h
        rw [frame_iteration_recorded env N w hd] at h
        cases h
        simp only [frame_loop, frame_iteration_recorded env N w hd, submitted, submitted_append,
          submitted_iteration_events, List.mem_append, List.mem_singleton] at hb
        rcases hb with hb | hb
        · exact ⟨w, hd, hb⟩
        · exact ih _ b hb

theorem frame_loop_false_recorded {σ : Type} (env : Env σ) (N : Nat) (answers : List Bool)
    (w : σ) (h : env.DrawIndex (acquired env w) < N) :
    (frame_loop env (false :: answers) (recorded N) w).events =
      event.glfwWindowShouldClose false ::
        (iteration_events (env.next_frame (env.glfwPollEvents w)).1
            (env.get_acquire_present_semaphore_pair (acquired env w))
            (slot_batch (env.get_acquire_present_semaphore_pair (acquired env w))
              (env.DrawIndex (acquired env w))) ++
          (frame_loop env answers (recorded N)
            (env.execute_and_wait operation.GRAPHICS
              [slot_batch (env.get_acquire_present_semaphore_pair (acquired env w))
                (env.DrawIndex (acquired env w))]
              (acquired env w))).events) := by
  simp only [frame_loop, frame_iteration_recorded env N w h]

theorem slot_batch_order (pair : shared_ptr semaphore × shared_ptr semaphore) (i : Nat) :
    List.indexOf (some (pre_transition i)) (slot_batch pair i).CommandBufferList <
      List.indexOf (some (post_transition i)) (slot_batch pair i).CommandBufferList := by
  have h1 : (some (pre_transition i) == some (post_transition i)) = false := by
    simp [pre_transition, post_transition]
  have h2 : (some (draw_call i) == some (post_transition i)) = false := by
    simp [draw_call, post_transition]
  simp [slot_batch, batch_of, List.indexOf_cons, h1, h2]

theorem submitted_frame_loop_any {σ : Type} (env : Env σ) (st : locals) (answers : List Bool) :
    ∀ (w : σ) (b : command_batch),
      b ∈ submitted (frame_loop env answers st w).events →
      ∃ (w1 : σ) (pre call post : shared_ptr command_buffer),
        b = batch_of (env.get_acquire_present_semaphore_pair (acquired env w1)) pre call post := by
  induction answers with
  | nil => intro w b hb; simp [frame_loop, submitted] at hb
  | cons a rest ih =>
    intro w b hb
    cases a with
    | true => simp [frame_loop, submitted] at hb
    | false =>
      cases h : frame_iteration env st w with
      | none => simp [frame_loop, h, submitted] at hb
      | some r =>
        obtain ⟨pre, call, post, h1, h2, h3⟩ := frame_iteration_lookups env st w r h
        simp only [frame_loop, frame_iteration_of_lookups env st w pre call post h1 h2 h3,
          submitted, submitted_append, submitted_iteration_events, List.mem_append,
          List.mem_singleton] at hb
        rcases hb with hb | hb
        · exact ⟨w, pre, call, post, hb⟩
        · exact ih _ b hb

theorem slot_member (pair : shared_ptr semaphore × shared_ptr semaphore) (i d : Nat)
    (p : shared_ptr command_buffer)
    (hp : p ∈ (slot_batch pair d).CommandBufferList)
    (hi : p = some (pre_transition i) ∨ p = some (draw_call i) ∨ p = some (post_transition i)) :
    d = i := by
  simp only [slot_batch, batch_of, List.mem_cons, List.mem_singleton, List.not_mem_nil,
    or_false] at hp
  rcases hp with hp | hp | hp <;> rcases hi with hi | hi | hi <;>
    · rw [hp] at hi
      simp only [pre_transition, draw_call, post_transition, Option.some.injEq,
        command_buffer.mk.injEq] at hi
      omega

theorem recorded_ids_nodup (N : Nat) :
    ((((List.range N).map pre_transition) ++ ((List.range N).map draw_call) ++
      ((List.range N).map post_transition)).map command_buffer.id).Nodup := by
  simp only [List.map_append, List.map_map]
  have h0 : ∀ x ∈ (List.range N).map (command_buffer.id ∘ pre_transition), x % 3 = 0 := by
    intro x hx
    obtain ⟨j, _, rfl⟩ := List.mem_map.1 hx
    simp [pre_transition]
  have h1 : ∀ x ∈ (List.range N).map (command_buffer.id ∘ draw_call), x % 3 = 1 := by
    intro x hx
    obtain ⟨j, _, rfl⟩ := List.mem_map.1 hx
    simp [draw_call]
    omega
  have h2 : ∀ x ∈ (List.range N).map (command_buffer.id ∘ post_transition), x % 3 = 2 := by
    intro x hx
    obtain ⟨j, _, rfl⟩ := List.mem_map.1 hx
    simp [post_transition]
    omega
  have n0 : ((List.range N).map (command_buffer.id ∘ pre_transition)).Nodup := by
    apply List.Nodup.map _ (List.nodup_range N)
    intro a b hab
    simp only [Function.comp, pre_transition] at hab
    omega
  have n1 : ((List.range N).map (command_buffer.id ∘ draw_call)).Nodup := by
    apply List.Nodup.map _ (List.nodup_range N)
    intro a b hab
    simp only [Function.comp, draw_call] at hab
    omega
  have n2 : ((List.range N).map (command_buffer.id ∘ post_transition)).Nodup := by
    apply List.Nodup.map _ (List.nodup_range N)
    intro a b hab
    simp only [Function.comp, post_transition] at hab
    omega
  rw [List.nodup_append, List.nodup_append]
  refine ⟨⟨n0, n1, ?_⟩, n2, ?_⟩
  · intro x hx0 hx1
    have := h0 x hx0
    have := h1 x hx1
    omega
  · intro x hx hx2
    have := h2 x hx2
    rcases List.mem_append.1 hx with hx | hx
    · have := h0 x hx
      omega
    · have := h1 x hx
      omega

/-! ## Lemmas on batches in flight -/

theorem in_flight_block (Result : VkResult) (pair : shared_ptr semaphore × shared_ptr semaphore)
    (b : command_batch) (l : List event)
    (h1 : ∀ k, in_flight 0 (l.take k) ≤ 1)
    (h2 : ∀ k a, l[k]? = some (event.glfwWindowShouldClose a) → in_flight 0 (l.take k) = 0) :
    (∀ k, in_flight 0
        ((event.glfwWindowShouldClose false :: (iteration_events Result pair b ++ l)).take k)
        ≤ 1) ∧
    (∀ k a,
      (event.glfwWindowShouldClose false :: (iteration_events Result pair b ++ l))[k]? =
        some (event.glfwWindowShouldClose a) →
      in_flight 0
        ((event.glfwWindowShouldClose false :: (iteration_events Result pair b ++ l)).take k)
        = 0) := by
  constructor
  · intro k
    rcases k with _ | _ | _ | _ | _ | _ | _ | k <;>
      simp [iteration_events, in_flight, List.take, h1]
  · intro k a
    rcases k with _ | _ | _ | _ | _ | _ | _ | k <;>
      simp [iteration_events, in_flight, List.take]
    exact h2 k a

theorem in_flight_frame_loop {σ : Type} (env : Env σ) (answers : List Bool) :
    ∀ (st : locals) (w : σ),
      (∀ k, in_flight 0 ((frame_loop env answers st w).events.take k) ≤ 1) ∧
      (∀ k a, (frame_loop env answers st w).events[k]? = some (event.glfwWindowShouldClose a) →
        in_flight 0 ((frame_loop env answers st w).events.take k) = 0) := by
  induction answers with
  | nil =>
    intro st w
    simp [frame_loop, in_flight]
  | cons a rest ih =>
    intro st w
    cases a with
    | true =>
      constructor
      · intro k
        rcases k with _ | k <;> simp [frame_loop, in_flight]
      · intro k a
        rcases k with _ | k <;> simp [frame_loop, in_flight]
    | false =>
      cases h : frame_iteration env st w with
      | none =>
        constructor
        · intro k
          rcases k with _ | k <;> simp [frame_loop, h, in_flight]
        · intro k a
          rcases k with _ | k <;> simp [frame_loop, h, in_flight]
      | some r =>
        obtain ⟨pre, call, post, h1, h2, h3⟩ := frame_iteration_lookups env st w r h
        simp only [frame_loop, frame_iteration_of_lookups env st w pre call post h1 h2 h3]
        exact in_flight_block _ _ _ _ (ih _ _).1 (ih _ _).2

/-! ## Counting lemmas -/

theorem frame_loop_induction {σ : Type} (env : Env σ) (P : List event → Prop)
    (hnil : P [])
    (htrue : P [event.glfwWindowShouldClose true])
    (hstop : P [event.glfwWindowShouldClose false])
    (hstep : ∀ (Result : VkResult) (pair : shared_ptr semaphore × shared_ptr semaphore)
      (b : command_batch) (l : List event), P l →
      P (event.glfwWindowShouldClose false :: (iteration_events Result pair b ++ l)))
    (answers : List Bool) :
    ∀ (st : locals) (w : σ), P (frame_loop env answers st w).events := by
  induction answers with
  | nil => intro st w; exact hnil
  | cons a rest ih =>
    intro st w
    cases a with
    | true => exact htrue
    | false =>
      cases h : frame_iteration env st w with
      | none =>
        simp only [frame_loop, h]
        exact hstop
      | some r =>
        obtain ⟨pre, call, post, h1, h2, h3⟩ := frame_iteration_lookups env st w r h
        simp only [frame_loop, frame_iteration_of_lookups env st w pre call post h1 h2 h3]
        exact hstep _ _ _ _ (ih _ _)

theorem acquisitions_append (l1 l2 : List event) :
    acquisitions (l1 ++ l2) = acquisitions l1 + acquisitions l2 := by
  induction l1 with
  | nil => simp [acquisitions]
  | cons e rest ih =>
    cases e <;> simp [acquisitions, ih]
    omega

theorem submissions_append (l1 l2 : List event) :
    submissions (l1 ++ l2) = submissions l1 + submissions l2 := by
  induction l1 with
  | nil => simp [submissions]
  | cons e rest ih =>
    cases e <;> simp [submissions, ih]
    omega

theorem close_queries_append (l1 l2 : List event) :
    close_queries (l1 ++ l2) = close_queries l1 + close_queries l2 := by
  induction l1 with
  | nil => simp [close_queries]
  | cons e rest ih =>
    cases e <;> simp [close_queries, ih]
    omega

theorem frame_loop_calls {σ : Type} (env : Env σ) (answers : List Bool) (st : locals) (w : σ) :
    ∀ (op : operation) (bs : List command_batch),
      event.execute_and_wait_call op bs ∈ (frame_loop env answers st w).events →
      op = operation.GRAPHICS ∧ bs.length = 1 := by
  refine frame_loop_induction env
    (fun l => ∀ (op : operation) (bs : List command_batch),
      event.execute_and_wait_call op bs ∈ l → op = operation.GRAPHICS ∧ bs.length = 1)
    ?_ ?_ ?_ ?_ answers st w
  · intro op bs h; simp at h
  · intro op bs h; simp at h
  · intro op bs h; simp at h
  · intro Result pair b l ih op bs h
    simp only [iteration_events, List.mem_cons, List.cons_append, List.nil_append,
      event.execute_and_wait_call.injEq, reduceCtorEq, false_or] at h
    rcases h with ⟨h1, h2⟩ | h
    · exact ⟨h1, by simp [h2]⟩
    · exact ih op bs h

theorem frame_loop_counts {σ : Type} (env : Env σ) (answers : List Bool) (st : locals) (w : σ) :
    submissions (frame_loop env answers st w).events =
        acquisitions (frame_loop env answers st w).events ∧
      List.count event.make_command_batch (frame_loop env answers st w).events =
        acquisitions (frame_loop env answers st w).events := by
  refine frame_loop_induction env
    (fun l => submissions l = acquisitions l ∧
      List.count event.make_command_batch l = acquisitions l)
    ?_ ?_ ?_ ?_ answers st w
  · exact ⟨rfl, rfl⟩
  · exact ⟨rfl, by decide⟩
  · exact ⟨rfl, by decide⟩
  · intro Result pair b l ih
    constructor
    · simp [iteration_events, submissions, acquisitions, ih.1]
    · simp [iteration_events, acquisitions, List.count_cons, ih.2]

theorem frame_loop_no_recording {σ : Type} (env : Env σ) (answers : List Bool) (st : locals)
    (w : σ) : ∀ e ∈ (frame_loop env answers st w).events, e.records = false := by
  refine frame_loop_induction env (fun l => ∀ e ∈ l, e.records = false) ?_ ?_ ?_ ?_ answers st w
  · intro e h; simp at h
  · intro e h
    simp only [List.mem_singleton] at h
    subst h; rfl
  · intro e h
    simp only [List.mem_singleton] at h
    subst h; rfl
  · intro Result pair b l ih e h
    simp only [iteration_events, List.mem_cons, List.cons_append, List.nil_append] at h
    rcases h with h | h | h | h | h | h | h | h
    · subst h; rfl
    · subst h; rfl
    · subst h; rfl
    · subst h; rfl
    · subst h; rfl
    · subst h; rfl
    · subst h; rfl
    · exact ih e h

/-! ## The shape of a run -/

theorem frame_loop_shape {σ : Type} (env : Env σ) (N : Nat) (tail : List Bool)
    (hrange : ∀ s : σ, env.DrawIndex s < N) (K : Nat) :
    ∀ w : σ, ∃ (blocks : List (List event)) (w1 : σ),
      blocks.length = K ∧
      (∀ blk ∈ blocks, ∃ (Result : VkResult) (pair : shared_ptr semaphore × shared_ptr semaphore)
        (j : Nat), j < N ∧
        blk = event.glfwWindowShouldClose false ::
          iteration_events Result pair (slot_batch pair j)) ∧
      (frame_loop env (List.replicate K false ++ tail) (recorded N) w).events =
        blocks.flatten ++ (frame_loop env tail (recorded N) w1).events ∧
      (frame_loop env (List.replicate K false ++ tail) (recorded N) w).exit =
        (frame_loop env tail (recorded N) w1).exit := by
  induction K with
  | zero =>
    intro w
    exact ⟨[], w, rfl, by simp, by simp, by simp⟩
  | succ K ih =>
    intro w
    obtain ⟨blocks, w1, hlen, hblk, hev, hexit⟩ := ih
      (env.execute_and_wait operation.GRAPHICS
        [slot_batch (env.get_acquire_present_semaphore_pair (acquired env w))
          (env.DrawIndex (acquired env w))] (acquired env w))
    refine ⟨(event.glfwWindowShouldClose false ::
        iteration_events (env.next_frame (env.glfwPollEvents w)).1
          (env.get_acquire_present_semaphore_pair (acquired env w))
          (slot_batch (env.get_acquire_present_semaphore_pair (acquired env w))
            (env.DrawIndex (acquired env w)))) :: blocks, w1, by simp [hlen], ?_, ?_, ?_⟩
    · intro blk hmem
      rcases List.mem_cons.1 hmem with hmem | hmem
      · exact ⟨_, _, _, hrange _, hmem⟩
      · exact hblk blk hmem
    · rw [List.replicate_succ, List.cons_append,
        frame_loop_false_recorded env N _ w (hrange _), hev]
      simp
    · rw [List.replicate_succ, List.cons_append]
      simp only [frame_loop, frame_iteration_recorded env N w (hrange _)]
      exact hexit

theorem blocks_counts (N : Nat) (blocks : List (List event))
    (hblk : ∀ blk ∈ blocks, ∃ (Result : VkResult)
      (pair : shared_ptr semaphore × shared_ptr semaphore) (j : Nat), j < N ∧
      blk = event.glfwWindowShouldClose false ::
        iteration_events Result pair (slot_batch pair j)) :
    acquisitions blocks.flatten = blocks.length ∧
    submissions blocks.flatten = blocks.length ∧
    close_queries blocks.flatten = blocks.length ∧
    (submitted blocks.flatten).length = blocks.length := by
  induction blocks with
  | nil => exact ⟨rfl, rfl, rfl, rfl⟩
  | cons blk rest ih =>
    obtain ⟨Result, pair, j, _, hb⟩ := hblk blk (by simp)
    obtain ⟨i1, i2, i3, i4⟩ := ih fun b hb => hblk b (by simp [hb])
    subst hb
    simp only [List.flatten_cons, acquisitions_append, submissions_append, close_queries_append,
      submitted_append, List.length_append, i1, i2, i3, i4, List.length_cons]
    simp [iteration_events, acquisitions, submissions, close_queries, submitted]
    omega

theorem record_loop_counts (count : Nat) : ∀ (i : Nat) (st : locals),
    acquisitions (record_loop count i st).1 = 0 ∧
    submissions (record_loop count i st).1 = 0 ∧
    close_queries (record_loop count i st).1 = 0 := by
  induction count with
  | zero => intro i st; exact ⟨rfl, rfl, rfl⟩
  | succ count ih =>
    intro i st
    obtain ⟨i1, i2, i3⟩ := ih (i + 1) (record_slot i st).2
    have hev : (record_loop (count + 1) i st).1 =
        (record_slot i st).1 ++ (record_loop count (i + 1) (record_slot i st).2).1 := rfl
    rw [hev, acquisitions_append, submissions_append, close_queries_append, i1, i2, i3]
    exact ⟨rfl, rfl, rfl⟩

theorem main_of_closed {σ : Type} (env : Env σ) (DeviceList : List device) (N : Nat)
    (answers : List Bool) (w : σ)
    (h : (frame_loop env answers (record_commands N).2 w).exit = loop_exit.window_closed) :
    (main env DeviceList N answers w).exit_code = some 0 ∧
    (main env DeviceList N answers w).events =
      (setup_context DeviceList).1 ++ (record_commands N).1 ++
        (frame_loop env answers (record_commands N).2 w).events ++ [event.glfwTerminate] := by
  simp only [main, h]
  exact ⟨trivial, trivial⟩

theorem ring_env_in_range : ∀ s : Nat, ring_env.DrawIndex s < 3 :=
  fun s => Nat.mod_lt (s + 2) (by decide)

/-! ## Lemmas on layouts -/

theorem exec_slot_batch (pair : shared_ptr semaphore × shared_ptr semaphore) (N j : Nat)
    (hj : j < N) :
    exec_buffers (List.replicate N layout.PRESENT_SRC_KHR) (slot_batch pair j).CommandBufferList =
      some (List.replicate N layout.PRESENT_SRC_KHR) := by
  have hget : (List.replicate N layout.PRESENT_SRC_KHR)[j]? = some layout.PRESENT_SRC_KHR := by
    simp [List.getElem?_replicate, hj]
  have hback : ((List.replicate N layout.PRESENT_SRC_KHR).set j
      layout.SHADER_READ_ONLY_OPTIMAL).set j layout.PRESENT_SRC_KHR =
      List.replicate N layout.PRESENT_SRC_KHR := by
    rw [List.set_set]
    apply List.ext_getElem?
    intro k
    by_cases hk : j = k
    · subst hk
      simp [List.getElem?_set, hj]
    · simp [List.getElem?_set, hk]
  have hmid : ((List.replicate N layout.PRESENT_SRC_KHR).set j
      layout.SHADER_READ_ONLY_OPTIMAL)[j]? = some layout.SHADER_READ_ONLY_OPTIMAL := by
    simp [List.getElem?_set, hj]
  simp only [slot_batch, batch_of, exec_buffers, pre_transition, draw_call, post_transition,
    exec_commands, exec_command, hget, hmid, hback, if_true]

theorem exec_batches_fixed (layouts : List layout) (bs : List command_batch)
    (h : ∀ b ∈ bs, exec_buffers layouts b.CommandBufferList = some layouts) :
    exec_batches layouts bs = some (List.replicate bs.length layouts) := by
  induction bs with
  | nil => rfl
  | cons b rest ih =>
    have hb := h b (by simp)
    have hrest := ih fun c hc => h c (by simp [hc])
    simp only [exec_batches, hb, hrest, List.length_cons, List.replicate_succ]

/-! ## Device selection -/

theorem select_device_eq_find (DeviceList : List device) :
    select_device none DeviceList =
      DeviceList.find? fun d => decide (d.deviceType = VkPhysicalDeviceType.DISCRETE_GPU) := by
  induction DeviceList with
  | nil => rfl
  | cons d rest ih =>
    by_cases h : d.deviceType = VkPhysicalDeviceType.DISCRETE_GPU
    · simp [select_device, List.find?, h]
    · simp [select_device, List.find?, h, ih]

theorem select_device_some_iff (DeviceList : List device) (d : device) :
    select_device none DeviceList = some d ↔
      ∃ before after, DeviceList = before ++ d :: after ∧
        d.deviceType = VkPhysicalDeviceType.DISCRETE_GPU ∧
        ∀ x ∈ before, x.deviceType ≠ VkPhysicalDeviceType.DISCRETE_GPU := by
  induction DeviceList with
  | nil => simp [select_device]
  | cons e rest ih =>
    by_cases h : e.deviceType = VkPhysicalDeviceType.DISCRETE_GPU
    · simp only [select_device, h, if_true, Option.some.injEq]
      constructor
      · intro hed
        subst hed
        exact ⟨[], rest, rfl, h, by simp⟩
      · rintro ⟨before, after, heq, _, hbefore⟩
        cases before with
        | nil =>
          simp only [List.nil_append, List.cons.injEq] at heq
          exact heq.1
        | cons b bs =>
          simp only [List.cons_append, List.cons.injEq] at heq
          exact absurd (heq.1 ▸ h) (hbefore b (by simp))
    · simp only [select_device, h, if_false, ih]
      constructor
      · rintro ⟨before, after, heq, hd, hbefore⟩
        refine ⟨e :: before, after, by simp [heq], hd, ?_⟩
        intro x hx
        rcases List.mem_cons.1 hx with hx | hx
        · exact hx ▸ h
        · exact hbefore x hx
      · rintro ⟨before, after, heq, hd, hbefore⟩
        cases before with
        | nil =>
          simp only [List.nil_append, List.cons.injEq] at heq
          exact absurd (heq.1 ▸ hd) h
        | cons b bs =>
          simp only [List.cons_append, List.cons.injEq] at heq
          exact ⟨bs, after, heq.2, hd, fun x hx => hbefore x (by simp [hx])⟩

theorem select_device_none_iff (DeviceList : List device) :
    select_device none DeviceList = none ↔
      ∀ x ∈ DeviceList, x.deviceType ≠ VkPhysicalDeviceType.DISCRETE_GPU := by
  rw [select_device_eq_find]
  simp

theorem main_events_head {σ : Type} (env : Env σ) (DeviceList : List device) (N : Nat)
    (answers : List Bool) (w : σ) :
    (main env DeviceList N answers w).events.head? =
      some (event.create_context (select_device none DeviceList) ContextOperations []
        [VK_KHR_SWAPCHAIN_EXTENSION_NAME]) := by
  unfold main
  simp only [setup_context]
  split <;> rfl

/-- C10: whatever list `get_devices()` returns, `PrimaryDevice` ends up as the
first element of the list, in list order, whose type is `DISCRETE_GPU`; it
stays null exactly when the list holds no discrete GPU; and in either case the
first call of the program's trace is `create_context` with that
`PrimaryDevice`. -/
theorem primary_device_is_first_discrete {σ : Type} (env : Env σ) (DeviceList : List device)
    (N : Nat) (answers : List Bool) (w : σ) :
    (select_device none DeviceList =
      DeviceList.find? fun d => decide (d.deviceType = VkPhysicalDeviceType.DISCRETE_GPU)) ∧
    (∀ d : device, select_device none DeviceList = some d ↔
      ∃ before after, DeviceList = before ++ d :: after ∧
        d.deviceType = VkPhysicalDeviceType.DISCRETE_GPU ∧
        ∀ x ∈ before, x.deviceType ≠ VkPhysicalDeviceType.DISCRETE_GPU) ∧
    (select_device none DeviceList = none ↔
      ∀ x ∈ DeviceList, x.deviceType ≠ VkPhysicalDeviceType.DISCRETE_GPU) ∧
    (setup_context DeviceList).2 = select_device none DeviceList ∧
    (main env DeviceList N answers w).events.head? =
      some (event.create_context (select_device none DeviceList) ContextOperations []
        [VK_KHR_SWAPCHAIN_EXTENSION_NAME]) :=
  ⟨select_device_eq_find DeviceList, select_device_some_iff DeviceList,
    select_device_none_iff DeviceList, rfl, main_events_head env DeviceList N answers w⟩

/-! ## The batch of an iteration -/

/-- C1: let `i < N` be the draw index `next_frame()` leaves in an iteration.
The iteration runs, submits one batch, and the batch's command-buffer list is
the three entries, in this order, that the recording loop stored for slot `i`:
the pre-transition buffer (on image `i`, PRESENT to SHADER_READ), the draw
call on image `i`, the post-transition buffer (on image `i`, SHADER_READ to
PRESENT); the pre-transition buffer stands before the post-transition buffer;
and when this is the loop's first iteration the batch is the first one the
loop submits.  Every batch any run of the loop submits is such a triple of
some slot `j < N`, in that order. -/
theorem batch_is_slot_triple {σ : Type} (env : Env σ) (N i : Nat) (answers : List Bool) (w : σ)
    (hi : i < N) (hd : env.DrawIndex (acquired env w) = i) :
    (∃ evs w1 b,
      frame_iteration env (record_commands N).2 w = some (evs, (record_commands N).2, w1) ∧
      submitted evs = [b] ∧
      b.CommandBufferList =
        [some (pre_transition i), some (draw_call i), some (post_transition i)] ∧
      (record_commands N).2.ClearScreenCommandBuffer[i]? = some (some (pre_transition i)) ∧
      (record_commands N).2.DrawCall[i]? = some (some (draw_call i)) ∧
      (record_commands N).2.FinalTransitionCommandBuffer[i]? = some (some (post_transition i)) ∧
      (pre_transition i).commands =
        [command.transition i layout.PRESENT_SRC_KHR layout.SHADER_READ_ONLY_OPTIMAL] ∧
      (draw_call i).commands = [command.draw i] ∧
      (post_transition i).commands =
        [command.transition i layout.SHADER_READ_ONLY_OPTIMAL layout.PRESENT_SRC_KHR] ∧
      List.indexOf (some (pre_transition i)) b.CommandBufferList <
        List.indexOf (some (post_transition i)) b.CommandBufferList ∧
      (submitted (frame_loop env (false :: answers) (record_commands N).2 w).events).head? =
        some b) ∧
    (∀ (w0 : σ) (b : command_batch),
      b ∈ submitted (frame_loop env answers (record_commands N).2 w0).events →
      ∃ j, j < N ∧
        b.CommandBufferList =
          [some (pre_transition j), some (draw_call j), some (post_transition j)] ∧
        List.indexOf (some (pre_transition j)) b.CommandBufferList <
          List.indexOf (some (post_transition j)) b.CommandBufferList) := by
  rw [record_commands_st]
  subst hd
  constructor
  · refine ⟨iteration_events (env.next_frame (env.glfwPollEvents w)).1
        (env.get_acquire_present_semaphore_pair (acquired env w))
        (slot_batch (env.get_acquire_present_semaphore_pair (acquired env w))
          (env.DrawIndex (acquired env w))),
      env.execute_and_wait operation.GRAPHICS
        [slot_batch (env.get_acquire_present_semaphore_pair (acquired env w))
          (env.DrawIndex (acquired env w))] (acquired env w),
      slot_batch (env.get_acquire_present_semaphore_pair (acquired env w))
        (env.DrawIndex (acquired env w)), ?_⟩
    refine ⟨frame_iteration_recorded env N w hi, rfl, rfl, recorded_clear N _ hi,
      recorded_draw N _ hi, recorded_final N _ hi, rfl, rfl, rfl, slot_batch_order _ _, ?_⟩
    rw [frame_loop_false_recorded env N answers w hi]
    rfl
  · intro w0 b hb
    obtain ⟨w1, hlt1, hb1⟩ := submitted_frame_loop env N answers w0 b hb
    subst hb1
    exact ⟨_, hlt1, rfl, slot_batch_order _ _⟩

/-- Scenario A, an instance of C1: with three images and a first draw index
of 0, the first batch of the loop holds the three buffers of slot 0. -/
theorem batch_is_slot_triple_scenario_a :
    (0 < 3 ∧ ring_env.DrawIndex (acquired ring_env 0) = 0) ∧
    ((∃ evs w1 b,
      frame_iteration ring_env (record_commands 3).2 0 = some (evs, (record_commands 3).2, w1) ∧
      submitted evs = [b] ∧
      b.CommandBufferList =
        [some (pre_transition 0), some (draw_call 0), some (post_transition 0)] ∧
      (record_commands 3).2.ClearScreenCommandBuffer[0]? = some (some (pre_transition 0)) ∧
      (record_commands 3).2.DrawCall[0]? = some (some (draw_call 0)) ∧
      (record_commands 3).2.FinalTransitionCommandBuffer[0]? = some (some (post_transition 0)) ∧
      (pre_transition 0).commands =
        [command.transition 0 layout.PRESENT_SRC_KHR layout.SHADER_READ_ONLY_OPTIMAL] ∧
      (draw_call 0).commands = [command.draw 0] ∧
      (post_transition 0).commands =
        [command.transition 0 layout.SHADER_READ_ONLY_OPTIMAL layout.PRESENT_SRC_KHR] ∧
      List.indexOf (some (pre_transition 0)) b.CommandBufferList <
        List.indexOf (some (post_transition 0)) b.CommandBufferList ∧
      (submitted (frame_loop ring_env (false :: [false, true]) (record_commands 3).2 0).events).head? =
        some b) ∧
    (∀ (w0 : Nat) (b : command_batch),
      b ∈ submitted (frame_loop ring_env [false, true] (record_commands 3).2 w0).events →
      ∃ j, j < 3 ∧
        b.CommandBufferList =
          [some (pre_transition j), some (draw_call j), some (post_transition j)] ∧
        List.indexOf (some (pre_transition j)) b.CommandBufferList <
          List.indexOf (some (post_transition j)) b.CommandBufferList)) :=
  ⟨⟨by decide, by decide⟩, batch_is_slot_triple ring_env 3 0 [false, true] 0 (by decide) (by decide)⟩

/-! ## Semaphore wiring -/

/-- C3: an iteration that runs calls `next_frame()` and only then fetches the
semaphore pair, so the pair is the one of the state `next_frame()` left; the
one batch it submits waits on exactly the pair's first semaphore at exactly
the stage `COLOR_ATTACHMENT_OUTPUT` and signals exactly the pair's second
semaphore.  Every batch any run of the loop submits is wired this way to the
pair fetched in its iteration. -/
theorem batch_semaphores {σ : Type} (env : Env σ) (st : locals) (answers : List Bool) (w : σ)
    (r : List event × locals × σ) (h : frame_iteration env st w = some r) :
    (∃ b : command_batch,
      r.1 = [event.glfwPollEvents,
             event.next_frame (env.next_frame (env.glfwPollEvents w)).1,
             event.get_acquire_present_semaphore_pair
               (env.get_acquire_present_semaphore_pair (env.next_frame (env.glfwPollEvents w)).2),
             event.make_command_batch,
             event.execute_and_wait_call operation.GRAPHICS [b],
             event.execute_and_wait_return] ∧
      b.WaitSemaphoreList =
        [(env.get_acquire_present_semaphore_pair (env.next_frame (env.glfwPollEvents w)).2).1] ∧
      b.WaitStageList = [VK_PIPELINE_STAGE_COLOR_ATTACHMENT_OUTPUT_BIT] ∧
      b.SignalSemaphoreList =
        [(env.get_acquire_present_semaphore_pair (env.next_frame (env.glfwPollEvents w)).2).2]) ∧
    (∀ (w0 : σ) (b : command_batch),
      b ∈ submitted (frame_loop env answers st w0).events →
      ∃ w1 : σ,
        b.WaitSemaphoreList =
          [(env.get_acquire_present_semaphore_pair
              (env.next_frame (env.glfwPollEvents w1)).2).1] ∧
        b.WaitStageList = [VK_PIPELINE_STAGE_COLOR_ATTACHMENT_OUTPUT_BIT] ∧
        b.SignalSemaphoreList =
          [(env.get_acquire_present_semaphore_pair
              (env.next_frame (env.glfwPollEvents w1)).2).2]) := by
  constructor
  · obtain ⟨pre, call, post, h1, h2, h3⟩ := frame_iteration_lookups env st w r h
    rw [frame_iteration_of_lookups env st w pre call post h1 h2 h3] at h
    cases h
    exact ⟨_, rfl, rfl, rfl, rfl⟩
  · intro w0 b hb
    obtain ⟨w1, pre, call, post, hb1⟩ := submitted_frame_loop_any env st answers w0 b hb
    subst hb1
    exact ⟨w1, rfl, rfl, rfl⟩

/-- An instance of C3: the first iteration on the three-image ring. -/
theorem batch_semaphores_on_ring :
    frame_iteration ring_env (record_commands 3).2 0 =
      some ([event.glfwPollEvents,
             event.next_frame VK_SUCCESS,
             event.get_acquire_present_semaphore_pair
               (some { Handle := 0 }, some { Handle := 1 }),
             event.make_command_batch,
             event.execute_and_wait_call operation.GRAPHICS
               [slot_batch (some { Handle := 0 }, some { Handle := 1 }) 0],
             event.execute_and_wait_return],
            (record_commands 3).2, 1) ∧
    ∃ b : command_batch,
      b.WaitSemaphoreList = [some { Handle := 0 }] ∧
      b.WaitStageList = [1024] ∧
      b.SignalSemaphoreList = [some { Handle := 1 }] := by
  have hrun : frame_iteration ring_env (record_commands 3).2 0 =
      some ([event.glfwPollEvents,
             event.next_frame VK_SUCCESS,
             event.get_acquire_present_semaphore_pair
               (some { Handle := 0 }, some { Handle := 1 }),
             event.make_command_batch,
             event.execute_and_wait_call operation.GRAPHICS
               [slot_batch (some { Handle := 0 }, some { Handle := 1 }) 0],
             event.execute_and_wait_return],
            (record_commands 3).2, 1) := by decide
  obtain ⟨b, _, hw, hs, hg⟩ := (batch_semaphores ring_env _ [false, true] 0 _ hrun).1
  exact ⟨hrun, b, hw, hs, hg⟩

/-- C4: in every batch that any run of the frame loop submits, from any
locals and any external state, the wait-semaphore list and the wait-stage list
have the same length (one entry each). -/
theorem wait_lists_same_length {σ : Type} (env : Env σ) (st : locals) (answers : List Bool)
    (w : σ) (b : command_batch) (hb : b ∈ submitted (frame_loop env answers st w).events) :
    b.WaitSemaphoreList.length = b.WaitStageList.length ∧ b.WaitSemaphoreList.length = 1 := by
  obtain ⟨w1, pre, call, post, hb1⟩ := submitted_frame_loop_any env st answers w b hb
  subst hb1
  exact ⟨rfl, rfl⟩

/-- An instance of C4: the batch of the second iteration on the three-image
ring. -/
theorem wait_lists_same_length_on_ring :
    slot_batch (some { Handle := 2 }, some { Handle := 3 }) 1 ∈
      submitted (frame_loop ring_env [false, false, true] (record_commands 3).2 0).events ∧
    (slot_batch (some { Handle := 2 }, some { Handle := 3 }) 1).WaitSemaphoreList.length =
      (slot_batch (some { Handle := 2 }, some { Handle := 3 }) 1).WaitStageList.length ∧
    (slot_batch (some { Handle := 2 }, some { Handle := 3 }) 1).WaitSemaphoreList.length = 1 :=
  ⟨by decide,
    wait_lists_same_length ring_env (record_commands 3).2 [false, false, true] 0 _ (by decide)⟩

/-! ## One triple per slot -/

/-- C6: for every image count `N` (so for every `N ≥ 2`) and every slot
`i < N`: after the recording loop each of the three vectors has length `N`;
entry `i` of each is a non-null, executable buffer recorded against image `i`
(so a lookup by `i` is in bounds and an iteration with draw index below `N`
runs); the vectors hold `3 N` buffers from `3 N` creation calls, no two the
same; and a buffer of triple `i` is in a submitted batch only when the draw
index of that iteration is `i`, the batch then being the batch of slot `i`. -/
theorem one_triple_per_slot {σ : Type} (env : Env σ) (N i : Nat) (answers : List Bool) (w : σ)
    (hi : i < N) (hd : env.DrawIndex (acquired env w) < N) :
    ((record_commands N).2.ClearScreenCommandBuffer.length = N ∧
      (record_commands N).2.DrawCall.length = N ∧
      (record_commands N).2.FinalTransitionCommandBuffer.length = N) ∧
    (∃ pre call post : command_buffer,
      (record_commands N).2.ClearScreenCommandBuffer[i]? = some (some pre) ∧
      (record_commands N).2.DrawCall[i]? = some (some call) ∧
      (record_commands N).2.FinalTransitionCommandBuffer[i]? = some (some post) ∧
      pre.commands =
        [command.transition i layout.PRESENT_SRC_KHR layout.SHADER_READ_ONLY_OPTIMAL] ∧
      call.commands = [command.draw i] ∧
      post.commands =
        [command.transition i layout.SHADER_READ_ONLY_OPTIMAL layout.PRESENT_SRC_KHR] ∧
      pre.state = recording_state.Executable ∧
      call.state = recording_state.Executable ∧
      post.state = recording_state.Executable) ∧
    (∃ bufs : List command_buffer,
      (record_commands N).2.all_buffers = bufs.map some ∧
      bufs.length = 3 * N ∧
      (bufs.map command_buffer.id).Nodup ∧
      bufs.Nodup) ∧
    (record_commands N).2.CommandPool.created = 3 * N ∧
    (∃ evs w1 b,
      frame_iteration env (record_commands N).2 w = some (evs, (record_commands N).2, w1) ∧
      submitted evs = [b] ∧
      ∀ p ∈ b.CommandBufferList,
        (some p = (record_commands N).2.ClearScreenCommandBuffer[i]? ∨
          some p = (record_commands N).2.DrawCall[i]? ∨
          some p = (record_commands N).2.FinalTransitionCommandBuffer[i]?) →
        env.DrawIndex (acquired env w) = i) ∧
    (∀ (w0 : σ) (b : command_batch),
      b ∈ submitted (frame_loop env answers (record_commands N).2 w0).events →
      ∀ p ∈ b.CommandBufferList,
        (some p = (record_commands N).2.ClearScreenCommandBuffer[i]? ∨
          some p = (record_commands N).2.DrawCall[i]? ∨
          some p = (record_commands N).2.FinalTransitionCommandBuffer[i]?) →
        ∃ w1 : σ, env.DrawIndex (acquired env w1) = i ∧
          b = slot_batch (env.get_acquire_present_semaphore_pair (acquired env w1)) i) := by
  rw [record_commands_st]
  have hmember : ∀ (pair : shared_ptr semaphore × shared_ptr semaphore) (d : Nat)
      (p : shared_ptr command_buffer), p ∈ (slot_batch pair d).CommandBufferList →
      (some p = (recorded N).ClearScreenCommandBuffer[i]? ∨
        some p = (recorded N).DrawCall[i]? ∨
        some p = (recorded N).FinalTransitionCommandBuffer[i]?) → d = i := by
    intro pair d p hp hor
    rw [recorded_clear N i hi, recorded_draw N i hi, recorded_final N i hi] at hor
    simp only [Option.some.injEq] at hor
    exact slot_member pair i d p hp hor
  refine ⟨?_, ?_, ?_, rfl, ?_, ?_⟩
  · simp [recorded]
  · exact ⟨pre_transition i, draw_call i, post_transition i, recorded_clear N i hi,
      recorded_draw N i hi, recorded_final N i hi, rfl, rfl, rfl, rfl, rfl, rfl⟩
  · refine ⟨((List.range N).map pre_transition) ++ ((List.range N).map draw_call) ++
      ((List.range N).map post_transition), ?_, ?_, recorded_ids_nodup N,
      List.Nodup.of_map _ (recorded_ids_nodup N)⟩
    · simp [locals.all_buffers, recorded]
      rfl
    · simp
      omega
  · refine ⟨_, _, _, frame_iteration_recorded env N w hd, rfl, ?_⟩
    intro p hp hor
    exact hmember _ _ p hp hor
  · intro w0 b hb p hp hor
    obtain ⟨w1, _, hb1⟩ := submitted_frame_loop env N answers w0 b hb
    subst hb1
    have hdi := hmember _ _ p hp hor
    exact ⟨w1, hdi, by rw [hdi]⟩

/-- An instance of C6: slot 1 of three, on the three-image ring. -/
theorem one_triple_per_slot_on_ring :
    (1 < 3 ∧ ring_env.DrawIndex (acquired ring_env 0) < 3) ∧
    (record_commands 3).2.all_buffers =
      [some (pre_transition 0), some (pre_transition 1), some (pre_transition 2),
       some (draw_call 0), some (draw_call 1), some (draw_call 2),
       some (post_transition 0), some (post_transition 1), some (post_transition 2)] ∧
    ∃ bufs : List command_buffer,
      (record_commands 3).2.all_buffers = bufs.map some ∧
      bufs.length = 3 * 3 ∧
      (bufs.map command_buffer.id).Nodup ∧
      bufs.Nodup :=
  ⟨⟨by decide, by decide⟩, by decide,
    (one_triple_per_slot ring_env 3 1 [false, true] 0 (by decide) (by decide)).2.2.1⟩

/-! ## One frame in flight -/

/-- C7: an iteration that runs makes exactly one submission: its trace is
poll, `next_frame`, pair, batch construction, then one `execute_and_wait`
call on the GRAPHICS queue with a list of exactly one batch, directly followed
by that call's return.  In any run of the loop, from any locals and state,
every `execute_and_wait` call is on GRAPHICS with exactly one batch, there are
as many submissions as `next_frame()` calls, at every point of the trace at
most one batch is in flight, and none is in flight at a should-close query,
which is where an iteration begins. -/
theorem one_batch_in_flight {σ : Type} (env : Env σ) (st : locals) (answers : List Bool)
    (w w0 : σ) (r : List event × locals × σ) (h : frame_iteration env st w = some r) :
    (∃ (Result : VkResult) (pair : shared_ptr semaphore × shared_ptr semaphore)
        (b : command_batch),
      r.1 = [event.glfwPollEvents,
             event.next_frame Result,
             event.get_acquire_present_semaphore_pair pair,
             event.make_command_batch,
             event.execute_and_wait_call operation.GRAPHICS [b],
             event.execute_and_wait_return] ∧
      submissions r.1 = 1 ∧
      submitted r.1 = [b] ∧
      in_flight 0 r.1 = 0) ∧
    (∀ (op : operation) (bs : List command_batch),
      event.execute_and_wait_call op bs ∈ (frame_loop env answers st w0).events →
      op = operation.GRAPHICS ∧ bs.length = 1) ∧
    submissions (frame_loop env answers st w0).events =
      acquisitions (frame_loop env answers st w0).events ∧
    (∀ k, in_flight 0 ((frame_loop env answers st w0).events.take k) ≤ 1) ∧
    (∀ k a, (frame_loop env answers st w0).events[k]? = some (event.glfwWindowShouldClose a) →
      in_flight 0 ((frame_loop env answers st w0).events.take k) = 0) := by
  refine ⟨?_, frame_loop_calls env answers st w0, (frame_loop_counts env answers st w0).1,
    (in_flight_frame_loop env answers st w0).1, (in_flight_frame_loop env answers st w0).2⟩
  obtain ⟨pre, call, post, h1, h2, h3⟩ := frame_iteration_lookups env st w r h
  rw [frame_iteration_of_lookups env st w pre call post h1 h2 h3] at h
  cases h
  exact ⟨_, _, _, rfl, rfl, rfl, rfl⟩

/-- An instance of C7: the first iteration on the three-image ring. -/
theorem one_batch_in_flight_on_ring :
    frame_iteration ring_env (record_commands 3).2 0 =
      some (iteration_events VK_SUCCESS (some { Handle := 0 }, some { Handle := 1 })
              (slot_batch (some { Handle := 0 }, some { Handle := 1 }) 0),
            (record_commands 3).2, 1) ∧
    submissions (frame_loop ring_env [false, false, true] (record_commands 3).2 0).events =
      acquisitions (frame_loop ring_env [false, false, true] (record_commands 3).2 0).events ∧
    (∀ k, in_flight 0
      ((frame_loop ring_env [false, false, true] (record_commands 3).2 0).events.take k) ≤ 1) := by
  have hrun : frame_iteration ring_env (record_commands 3).2 0 =
      some (iteration_events VK_SUCCESS (some { Handle := 0 }, some { Handle := 1 })
              (slot_batch (some { Handle := 0 }, some { Handle := 1 }) 0),
            (record_commands 3).2, 1) := by decide
  have hall := one_batch_in_flight ring_env _ [false, false, true] 0 0 _ hrun
  exact ⟨hrun, hall.2.2.1, hall.2.2.2.1⟩

/-! ## Nothing is re-recorded -/

/-- C8: a run of the frame loop, whatever the answers, leaves the locals as
the recording loop produced them: the three vectors still hold, slot by slot,
the recorded triples, and the pool's creation count is unchanged.  Its trace
holds no creation, begin, transition-recording or end of a command buffer, and
as many batch constructions as `next_frame()` calls: the batch is the only
object an iteration creates.  In particular, with the draw index in range, `K`
answers `false` give `K` iterations, after which the locals are those the
setup produced. -/
theorem loop_records_nothing {σ : Type} (env : Env σ) (N K : Nat) (answers : List Bool) (w : σ)
    (hrange : ∀ s : σ, env.DrawIndex s < N) :
    (frame_loop env answers (record_commands N).2 w).st = (record_commands N).2 ∧
    (frame_loop env answers (record_commands N).2 w).st.ClearScreenCommandBuffer =
      (List.range N).map (fun i => some (pre_transition i)) ∧
    (frame_loop env answers (record_commands N).2 w).st.DrawCall =
      (List.range N).map (fun i => some (draw_call i)) ∧
    (frame_loop env answers (record_commands N).2 w).st.FinalTransitionCommandBuffer =
      (List.range N).map (fun i => some (post_transition i)) ∧
    (frame_loop env answers (record_commands N).2 w).st.CommandPool.created = 3 * N ∧
    (∀ e ∈ (frame_loop env answers (record_commands N).2 w).events, e.records = false) ∧
    List.count event.make_command_batch (frame_loop env answers (record_commands N).2 w).events =
      acquisitions (frame_loop env answers (record_commands N).2 w).events ∧
    acquisitions (frame_loop env (List.replicate K false) (record_commands N).2 w).events = K ∧
    List.count event.make_command_batch
      (frame_loop env (List.replicate K false) (record_commands N).2 w).events = K ∧
    (frame_loop env (List.replicate K false) (record_commands N).2 w).st =
      (record_commands N).2 := by
  have hK : acquisitions (frame_loop env (List.replicate K false) (recorded N) w).events = K := by
    obtain ⟨blocks, w1, hl, hblk, hev, _⟩ := frame_loop_shape env N [] hrange K w
    obtain ⟨c1, _, _, _⟩ := blocks_counts N blocks hblk
    have hnil : (frame_loop env [] (recorded N) w1).events = [] := rfl
    rw [List.append_nil, hnil, List.append_nil] at hev
    rw [hev, c1, hl]
  rw [frame_loop_st, frame_loop_st, record_commands_st]
  exact ⟨rfl, rfl, rfl, rfl, rfl, frame_loop_no_recording env answers _ w,
    (frame_loop_counts env answers _ w).2, hK,
    (frame_loop_counts env (List.replicate K false) _ w).2.trans hK, rfl⟩

/-- An instance of C8: five frames on the three-image ring. -/
theorem loop_records_nothing_on_ring :
    (∀ s : Nat, ring_env.DrawIndex s < 3) ∧
    acquisitions (frame_loop ring_env (List.replicate 5 false) (record_commands 3).2 0).events
      = 5 ∧
    List.count event.make_command_batch
      (frame_loop ring_env (List.replicate 5 false) (record_commands 3).2 0).events = 5 ∧
    (frame_loop ring_env (List.replicate 5 false) (record_commands 3).2 0).st =
      (record_commands 3).2 := by
  have hall := loop_records_nothing ring_env 3 5 [false, true] 0 ring_env_in_range
  exact ⟨ring_env_in_range, hall.2.2.2.2.2.2.2.1, hall.2.2.2.2.2.2.2.2.1,
    hall.2.2.2.2.2.2.2.2.2⟩

/-! ## Leaving the loop -/

/-- C9: let the window's answers be `false` for the first `K` should-close
queries and `true` for the next, and let the swapchain keep its draw index in
range.  Then the loop's trace is `K` blocks, each of them the should-close
query followed by one iteration (poll, `next_frame`, pair, batch, submit,
return), and after them the query answered `true`, with which the trace ends:
`K + 1` queries, `K` `next_frame()` calls, `K` submissions, nothing after the
`true` answer.  The loop exits, `main` calls `glfwTerminate` and returns 0;
nothing before the loop queries, acquires or submits. -/
theorem loop_stops_at_first_close {σ : Type} (env : Env σ) (DeviceList : List device)
    (N K : Nat) (rest : List Bool) (w : σ) (hrange : ∀ s : σ, env.DrawIndex s < N) :
    (frame_loop env (List.replicate K false ++ true :: rest) (record_commands N).2 w).exit =
      loop_exit.window_closed ∧
    (∃ blocks : List (List event),
      blocks.length = K ∧
      (∀ blk ∈ blocks, ∃ (Result : VkResult)
          (pair : shared_ptr semaphore × shared_ptr semaphore) (b : command_batch),
        blk = [event.glfwWindowShouldClose false,
               event.glfwPollEvents,
               event.next_frame Result,
               event.get_acquire_present_semaphore_pair pair,
               event.make_command_batch,
               event.execute_and_wait_call operation.GRAPHICS [b],
               event.execute_and_wait_return]) ∧
      (frame_loop env (List.replicate K false ++ true :: rest) (record_commands N).2 w).events =
        blocks.flatten ++ [event.glfwWindowShouldClose true]) ∧
    acquisitions
      (frame_loop env (List.replicate K false ++ true :: rest) (record_commands N).2 w).events
      = K ∧
    submissions
      (frame_loop env (List.replicate K false ++ true :: rest) (record_commands N).2 w).events
      = K ∧
    close_queries
      (frame_loop env (List.replicate K false ++ true :: rest) (record_commands N).2 w).events
      = K + 1 ∧
    (main env DeviceList N (List.replicate K false ++ true :: rest) w).exit_code = some 0 ∧
    (∃ setup : List event,
      (main env DeviceList N (List.replicate K false ++ true :: rest) w).events =
        setup ++
          (frame_loop env (List.replicate K false ++ true :: rest) (record_commands N).2 w).events
          ++ [event.glfwTerminate] ∧
      acquisitions setup = 0 ∧ submissions setup = 0 ∧ close_queries setup = 0) := by
  obtain ⟨blocks, w1, hlen, hblk, hev, hexit⟩ :=
    frame_loop_shape env N (true :: rest) hrange K w
  have hclosed :
      (frame_loop env (List.replicate K false ++ true :: rest) (record_commands N).2 w).exit =
        loop_exit.window_closed := by
    rw [record_commands_st, hexit]
    rfl
  obtain ⟨hcode, hmain⟩ := main_of_closed env DeviceList N _ w hclosed
  obtain ⟨c1, c2, c3, _⟩ := blocks_counts N blocks hblk
  have htail : (frame_loop env (true :: rest) (recorded N) w1).events =
      [event.glfwWindowShouldClose true] := rfl
  rw [htail] at hev
  refine ⟨hclosed, ⟨blocks, hlen, ?_, ?_⟩, ?_, ?_, ?_, hcode, ?_⟩
  · intro blk hmem
    obtain ⟨Result, pair, j, _, hb⟩ := hblk blk hmem
    exact ⟨Result, pair, slot_batch pair j, hb⟩
  · rw [record_commands_st]
    exact hev
  · rw [record_commands_st, hev, acquisitions_append, c1, hlen]
    rfl
  · rw [record_commands_st, hev, submissions_append, c2, hlen]
    rfl
  · rw [record_commands_st, hev, close_queries_append, c3, hlen]
    rfl
  · refine ⟨(setup_context DeviceList).1 ++ (record_commands N).1, hmain, ?_⟩
    obtain ⟨r1, r2, r3⟩ := record_loop_counts N 0 (init_locals N)
    have hrec : (record_commands N).1 =
        event.create_command_pool operation.GRAPHICS :: (record_loop N 0 (init_locals N)).1 := rfl
    rw [acquisitions_append, submissions_append, close_queries_append, hrec]
    simp [setup_context, acquisitions, submissions, close_queries, r1, r2, r3]

/-- An instance of C9: two frames on the three-image ring, then the window
closes. -/
theorem loop_stops_at_first_close_on_ring :
    (∀ s : Nat, ring_env.DrawIndex s < 3) ∧
    (frame_loop ring_env (List.replicate 2 false ++ true :: [false]) (record_commands 3).2 0).exit =
      loop_exit.window_closed ∧
    acquisitions
      (frame_loop ring_env (List.replicate 2 false ++ true :: [false]) (record_commands 3).2
        0).events = 2 ∧
    submissions
      (frame_loop ring_env (List.replicate 2 false ++ true :: [false]) (record_commands 3).2
        0).events = 2 ∧
    close_queries
      (frame_loop ring_env (List.replicate 2 false ++ true :: [false]) (record_commands 3).2
        0).events = 2 + 1 ∧
    (main ring_env [] 3 (List.replicate 2 false ++ true :: [false]) 0).exit_code = some 0 := by
  have hall := loop_stops_at_first_close ring_env [] 3 2 [false] 0 ring_env_in_range
  exact ⟨ring_env_in_range, hall.1, hall.2.2.1, hall.2.2.2.1, hall.2.2.2.2.1, hall.2.2.2.2.2.1⟩

/-! ## Image layouts -/

/-- C5: run the submitted batches, in order, on the image layouts, every
image starting in PRESENT_SRC.  For every run of the loop with the draw index
in range, no transition finds its image in another layout than its recorded
source layout, and after every batch every image is back in PRESENT_SRC; each
batch holds exactly the two transitions PRESENT to SHADER_READ and SHADER_READ
to PRESENT, in this order; and `K` iterations submit `K` such batches. -/
theorem layouts_cycle {σ : Type} (env : Env σ) (N K : Nat) (answers : List Bool) (w : σ)
    (hrange : ∀ s : σ, env.DrawIndex s < N) :
    (submitted (frame_loop env (List.replicate K false) (record_commands N).2 w).events).length
      = K ∧
    exec_batches (List.replicate N layout.PRESENT_SRC_KHR)
        (submitted (frame_loop env (List.replicate K false) (record_commands N).2 w).events) =
      some (List.replicate K (List.replicate N layout.PRESENT_SRC_KHR)) ∧
    exec_batches (List.replicate N layout.PRESENT_SRC_KHR)
        (submitted (frame_loop env answers (record_commands N).2 w).events) =
      some (List.replicate
        (submitted (frame_loop env answers (record_commands N).2 w).events).length
        (List.replicate N layout.PRESENT_SRC_KHR)) ∧
    (∀ b ∈ submitted (frame_loop env answers (record_commands N).2 w).events,
      batch_transitions b =
        [(layout.PRESENT_SRC_KHR, layout.SHADER_READ_ONLY_OPTIMAL),
         (layout.SHADER_READ_ONLY_OPTIMAL, layout.PRESENT_SRC_KHR)]) := by
  rw [record_commands_st]
  have hfix : ∀ (ans : List Bool),
      ∀ b ∈ submitted (frame_loop env ans (recorded N) w).events,
        exec_buffers (List.replicate N layout.PRESENT_SRC_KHR) b.CommandBufferList =
          some (List.replicate N layout.PRESENT_SRC_KHR) := by
    intro ans b hb
    obtain ⟨w1, hlt, hb1⟩ := submitted_frame_loop env N ans w b hb
    subst hb1
    exact exec_slot_batch _ N _ hlt
  have hlen : (submitted (frame_loop env (List.replicate K false) (recorded N) w).events).length
      = K := by
    obtain ⟨blocks, w1, hl, hblk, hev, _⟩ := frame_loop_shape env N [] hrange K w
    obtain ⟨_, _, _, c4⟩ := blocks_counts N blocks hblk
    have hnil : (frame_loop env [] (recorded N) w1).events = [] := rfl
    rw [List.append_nil, hnil, List.append_nil] at hev
    rw [hev, c4, hl]
  refine ⟨hlen, ?_, exec_batches_fixed _ _ (hfix answers), ?_⟩
  · have h := exec_batches_fixed _ _ (hfix (List.replicate K false))
    rw [hlen] at h
    exact h
  · intro b hb
    obtain ⟨w1, _, hb1⟩ := submitted_frame_loop env N answers w b hb
    subst hb1
    rfl

/-- An instance of C5: four frames on the three-image ring. -/
theorem layouts_cycle_on_ring :
    (∀ s : Nat, ring_env.DrawIndex s < 3) ∧
    (submitted (frame_loop ring_env (List.replicate 4 false) (record_commands 3).2 0).events).length
      = 4 ∧
    exec_batches (List.replicate 3 layout.PRESENT_SRC_KHR)
        (submitted (frame_loop ring_env (List.replicate 4 false) (record_commands 3).2 0).events) =
      some (List.replicate 4 (List.replicate 3 layout.PRESENT_SRC_KHR)) := by
  have hall := layouts_cycle ring_env 3 4 [false, true] 0 ring_env_in_range
  exact ⟨ring_env_in_range, hall.1, hall.2.1⟩

/-! ## An out-of-date swapchain -/

/-- C2, as stated, fails: on the swapchain whose `next_frame()` returns
`VK_ERROR_OUT_OF_DATE_KHR`, the iteration still submits a batch, that of the
stale slot 1; a loop of two such frames makes two submissions, exits on the
window's answer alone, and `main` returns 0. -/
theorem out_of_date_frame_is_submitted :
    (stale_env.next_frame (stale_env.glfwPollEvents 0)).1 = VK_ERROR_OUT_OF_DATE_KHR ∧
    frame_iteration stale_env (record_commands 3).2 0 =
      some ([event.glfwPollEvents,
             event.next_frame VK_ERROR_OUT_OF_DATE_KHR,
             event.get_acquire_present_semaphore_pair
               (some { Handle := 2 }, some { Handle := 3 }),
             event.make_command_batch,
             event.execute_and_wait_call operation.GRAPHICS
               [slot_batch (some { Handle := 2 }, some { Handle := 3 }) 1],
             event.execute_and_wait_return],
            (record_commands 3).2, 0) ∧
    submissions (frame_loop stale_env [false, false, true] (record_commands 3).2 0).events = 2 ∧
    (frame_loop stale_env [false, false, true] (record_commands 3).2 0).exit =
      loop_exit.window_closed ∧
    (main stale_env [] 3 [false, false, true] 0).exit_code = some 0 := by
  decide

/-- C2, amended: in an iteration whose `next_frame()` returns the out-of-date
error, with the draw index in range, the status is stored and not examined:
the iteration fetches the pair, builds the batch of the slot the draw index
names and submits it, exactly one submission; the loop then goes on to its
next should-close query as after any other frame. -/
theorem out_of_date_frame_submits_stale_slot {σ : Type} (env : Env σ) (N : Nat)
    (answers : List Bool) (w : σ)
    (hd : env.DrawIndex (acquired env w) < N)
    (herr : (env.next_frame (env.glfwPollEvents w)).1 = VK_ERROR_OUT_OF_DATE_KHR) :
    frame_iteration env (record_commands N).2 w =
      some ([event.glfwPollEvents,
             event.next_frame VK_ERROR_OUT_OF_DATE_KHR,
             event.get_acquire_present_semaphore_pair
               (env.get_acquire_present_semaphore_pair (acquired env w)),
             event.make_command_batch,
             event.execute_and_wait_call operation.GRAPHICS
               [slot_batch (env.get_acquire_present_semaphore_pair (acquired env w))
                 (env.DrawIndex (acquired env w))],
             event.execute_and_wait_return],
            (record_commands N).2,
            env.execute_and_wait operation.GRAPHICS
              [slot_batch (env.get_acquire_present_semaphore_pair (acquired env w))
                (env.DrawIndex (acquired env w))]
              (acquired env w)) ∧
    submissions (iteration_events VK_ERROR_OUT_OF_DATE_KHR
      (env.get_acquire_present_semaphore_pair (acquired env w))
      (slot_batch (env.get_acquire_present_semaphore_pair (acquired env w))
        (env.DrawIndex (acquired env w)))) = 1 ∧
    (frame_loop env (false :: answers) (record_commands N).2 w).events =
      event.glfwWindowShouldClose false ::
        (iteration_events VK_ERROR_OUT_OF_DATE_KHR
            (env.get_acquire_present_semaphore_pair (acquired env w))
            (slot_batch (env.get_acquire_present_semaphore_pair (acquired env w))
              (env.DrawIndex (acquired env w))) ++
          (frame_loop env answers (record_commands N).2
            (env.execute_and_wait operation.GRAPHICS
              [slot_batch (env.get_acquire_present_semaphore_pair (acquired env w))
                (env.DrawIndex (acquired env w))]
              (acquired env w))).events) := by
  rw [record_commands_st]
  refine ⟨?_, rfl, ?_⟩
  · rw [frame_iteration_recorded env N w hd, herr]
    rfl
  · rw [frame_loop_false_recorded env N answers w hd, herr]

/-- An instance of the amended C2: the first frame on the out-of-date
swapchain. -/
theorem out_of_date_frame_submits_stale_slot_on_stale :
    (stale_env.DrawIndex (acquired stale_env 0) < 3 ∧
      (stale_env.next_frame (stale_env.glfwPollEvents 0)).1 = VK_ERROR_OUT_OF_DATE_KHR) ∧
    (frame_loop stale_env (false :: [true]) (record_commands 3).2 0).events =
      event.glfwWindowShouldClose false ::
        (iteration_events VK_ERROR_OUT_OF_DATE_KHR
            (stale_env.get_acquire_present_semaphore_pair (acquired stale_env 0))
            (slot_batch (stale_env.get_acquire_present_semaphore_pair (acquired stale_env 0))
              (stale_env.DrawIndex (acquired stale_env 0))) ++
          (frame_loop stale_env [true] (record_commands 3).2
            (stale_env.execute_and_wait operation.GRAPHICS
              [slot_batch (stale_env.get_acquire_present_semaphore_pair (acquired stale_env 0))
                (stale_env.DrawIndex (acquired stale_env 0))]
              (acquired stale_env 0))).events) :=
  ⟨⟨by decide, by decide⟩,
    (out_of_date_frame_submits_stale_slot stale_env 3 [true] 0 (by decide) (by decide)).2.2⟩

end ImLazy
